import Mathlib

/-!
Shallow embedding of the lnt-sovereign manifest evaluation core
(src/lnt_sovereign/core/{kernel,optimized_kernel,compiler,formal,state}.py)
and proofs about the spec's claims over it.

Modelling conventions:
* Python numbers are rationals (ℚ); manifest/proposal values are `PyVal`
  (number, string, or flat list of scalars — nested lists do not occur in
  any manifest of the repository and are outside the value universe).
* Python `float()` applied to non-numeric objects raises; applied to strings
  it parses decimal literals.  The model makes `float()` fail on strings and
  lists (numeric-string thresholds are not exercised by any claim).
* Python dictionaries are association lists; the most recent write wins
  (new entries are consed in front and lookup takes the first match).
* `round(x, 2)` is modelled as `⌊x*100 + 1/2⌋ / 100`; the two differ only on
  exact ties, which no score in this development hits.
* String formatting of values inside violation messages approximates Python
  numeral/list `repr`; no claim inspects a value-carrying message.
* The `KernelEngine` is modelled with `state_buffer = None` (its default), so
  the push / temporal-window resolution steps of `trace_evaluate` are the
  no-ops they are in that configuration.
* The Z3 solver called by `FormalVerifier.verify_consistency` is external to
  the repository; its outcome (`sat`/`unsat`/`unknown`) is a parameter, and
  the dispatch on that outcome in formal.py is embedded directly.
* Character-level helpers (`lowerChar`, `strip`, …) re-implement the ASCII
  fragment of `str.lower`/`str.strip` used by `parse_window`.
-/

namespace LNT

/-- Decidable equality of `Except` results (used to state and check
concrete evaluations). -/
instance {ε α : Type} [DecidableEq ε] [DecidableEq α] :
    DecidableEq (Except ε α) := fun a b =>
  match a, b with
  | .ok x, .ok y =>
      if h : x = y then isTrue (by rw [h]) else isFalse (by simp [h])
  | .error e, .error f =>
      if h : e = f then isTrue (by rw [h]) else isFalse (by simp [h])
  | .ok _, .error _ => isFalse (fun h => Except.noConfusion h)
  | .error _, .ok _ => isFalse (fun h => Except.noConfusion h)

/-- A scalar Python value (number or string). -/
inductive PyScalar where
  | num (q : ℚ)
  | str (s : String)
deriving DecidableEq, Repr

/-- A dynamic Python value as it occurs in manifests and proposals:
a number, a string, or a (flat) list of scalars. -/
inductive PyVal where
  | num (q : ℚ)
  | str (s : String)
  | list (l : List PyScalar)
deriving DecidableEq, Repr

/-- Injection of scalars into values (Python has no such distinction;
indexing a list yields the element itself). -/
def PyScalar.toVal : PyScalar → PyVal
  | .num q => .num q
  | .str s => .str s

/-- The operator enumeration of kernel.py (`ConstraintOperator`). -/
inductive ConstraintOperator where
  | GT | LT | GTE | LTE | EQ | IN | NIN | RANGE | REQUIRED
deriving DecidableEq, Repr

/-- `ManifestConstraint` of kernel.py. -/
structure ManifestConstraint where
  id : String
  entity : String
  operator : ConstraintOperator
  value : PyVal
  description : String
  severity : String := "CRITICAL"
  weight : ℚ := 1
  conditional_on : Option (List String) := Option.none
  temporal_window : Option String := Option.none
  evidence_source : Option String := Option.none
deriving DecidableEq, Repr

/-- `DomainManifest` of kernel.py (the plain record; the pydantic
`validate_entities` hook is embedded separately below). -/
structure DomainManifest where
  domain_id : String
  domain_name : String
  version : String
  entities : List String
  constraints : List ManifestConstraint
deriving DecidableEq, Repr

/-- The pydantic field validator `DomainManifest.validate_entities`:
walks the constraints and rejects the first one whose entity is not
declared.  `Except.error` carries the `ValueError` message. -/
def validate_entities (entities : List String) :
    List ManifestConstraint → Except String Unit
  | [] => .ok ()
  | c :: rest =>
      if entities.contains c.entity then validate_entities entities rest
      else .error ("Constraint " ++ c.id ++ " uses undefined entity: " ++ c.entity)

/-- Constructing a `DomainManifest(**data)`: pydantic runs the field
validator; a raised `ValueError` aborts construction (pydantic re-raises it
as a validation error). -/
def DomainManifest.construct (m : DomainManifest) : Except String DomainManifest :=
  (validate_entities m.entities m.constraints).map (fun _ => m)

/-! ### Character-level string helpers (ASCII fragment) -/

/-- ASCII `str.lower` on one character. -/
def lowerChar (c : Char) : Char :=
  if 65 ≤ c.toNat ∧ c.toNat ≤ 90 then Char.ofNat (c.toNat + 32) else c

/-- `str.strip()`: drop whitespace from both ends. -/
def strip (cs : List Char) : List Char :=
  ((cs.dropWhile Char.isWhitespace).reverse.dropWhile Char.isWhitespace).reverse

/-- `str.endswith(suffix)`. -/
def endsWithChars (cs suffix : List Char) : Bool :=
  suffix.isSuffixOf cs

/-- `s[:-n]` on a character list. -/
def dropRightChars (cs : List Char) (n : ℕ) : List Char :=
  cs.take (cs.length - n)

/-- Digit run → natural number. -/
def digitsToNat (cs : List Char) : ℕ :=
  cs.foldl (fun a c => 10 * a + (c.toNat - 48)) 0

/-- The decimal-literal fragment of Python `float(str)`: optional sign,
digits, optional fractional part.  Exponents, `inf`/`nan` and underscores
are not modelled (no claim uses them).  `Option.none` is a `ValueError`. -/
def parseFloat (cs0 : List Char) : Option ℚ :=
  let signed : ℚ × List Char :=
    match cs0 with
    | '-' :: r => (-1, r)
    | '+' :: r => (1, r)
    | r => (1, r)
  let sign := signed.1
  let rest := signed.2
  match rest.splitOn '.' with
  | [intPart] =>
      if intPart ≠ [] ∧ intPart.all Char.isDigit then
        some (sign * (digitsToNat intPart : ℚ))
      else Option.none
  | [intPart, fracPart] =>
      if (intPart ≠ [] ∨ fracPart ≠ []) ∧ intPart.all Char.isDigit ∧
          fracPart.all Char.isDigit then
        some (sign * ((digitsToNat intPart : ℚ) +
          (digitsToNat fracPart : ℚ) / (10 ^ fracPart.length)))
      else Option.none
  | _ => Option.none

/-- `LNTStateBuffer.parse_window` of state.py: duration string → seconds.
The result is `Option` because the Python numeric conversion can raise on a
non-numeric prefix. -/
def parse_window (window_str : String) : Option ℚ :=
  let w := strip (window_str.toList.map lowerChar)
  if endsWithChars w ['m', 's'] then
    (parseFloat (dropRightChars w 2)).map (· / 1000)
  else if endsWithChars w ['s'] then parseFloat (dropRightChars w 1)
  else if endsWithChars w ['m'] then
    (parseFloat (dropRightChars w 1)).map (· * 60)
  else if endsWithChars w ['h'] then
    (parseFloat (dropRightChars w 1)).map (· * 3600)
  else if endsWithChars w ['d'] then
    (parseFloat (dropRightChars w 1)).map (· * 86400)
  else some 0

/-! ### Dynamic operations on values -/

/-- An apostrophe, used by kernel.py inside violation messages. -/
def sq : String := String.singleton (Char.ofNat 39)

/-- Approximation of Python `str()` on values (int/float numeral formatting
is collapsed; list rendering is abbreviated).  No claim inspects it. -/
def pyStr : PyVal → String
  | .num q => if q.den = 1 then toString q.num else toString q
  | .str s => s
  | .list _ => "[...]"

/-- Python `a > b`: number/number and string/string compare; anything else
is a `TypeError` (`Option.none`). -/
def pyGT : PyVal → PyVal → Option Bool
  | .num a, .num b => some (decide (b < a))
  | .str a, .str b => some (decide (b < a))
  | _, _ => Option.none

/-- Python `a < b` under the same modelling as `pyGT`. -/
def pyLT : PyVal → PyVal → Option Bool
  | .num a, .num b => some (decide (a < b))
  | .str a, .str b => some (decide (a < b))
  | _, _ => Option.none

/-- Python `a >= b` under the same modelling as `pyGT`. -/
def pyGE : PyVal → PyVal → Option Bool
  | .num a, .num b => some (decide (b ≤ a))
  | .str a, .str b => some (decide (b ≤ a))
  | _, _ => Option.none

/-- Python `a <= b` under the same modelling as `pyGT`. -/
def pyLE : PyVal → PyVal → Option Bool
  | .num a, .num b => some (decide (a ≤ b))
  | .str a, .str b => some (decide (a ≤ b))
  | _, _ => Option.none

/-- Python `a == b` (never raises; cross-type values compare unequal). -/
def pyEq (a b : PyVal) : Bool := a == b

/-- Python `v in container` for a list container; membership in a string
(substring test) or a scalar (a `TypeError`) is modelled as `Option.none`;
no claim exercises the IN operator. -/
def pyIn (v : PyVal) : PyVal → Option Bool
  | .list l => some (l.any (fun x => pyEq x.toVal v))
  | _ => Option.none

/-- Python subscription `container[i]`: distinguishes `TypeError`
(unsubscriptable number) from `IndexError` (out of range), because
kernel.py catches only the former. -/
inductive IndexResult where
  | ok (v : PyVal)
  | typeErr
  | idxErr
deriving DecidableEq, Repr

/-- Models `value[i]` as used by the RANGE branch of kernel.py. -/
def pyIndex : PyVal → ℕ → IndexResult
  | .list l, i =>
      match l.get? i with
      | some v => .ok v.toVal
      | Option.none => .idxErr
  | .str s, i =>
      match s.toList.get? i with
      | some c => .ok (.str (String.singleton c))
      | Option.none => .idxErr
  | .num _, _ => .typeErr

/-! ### Interpreted evaluator (`KernelEngine` of kernel.py) -/

/-- A violation record as built by `KernelEngine._create_violation`. -/
structure Violation where
  id : String
  entity : String
  description : String
  logic_error : String
  severity : String
  evidence : Option String
deriving DecidableEq, Repr

/-- `KernelEngine._create_violation`. -/
def mkViolation (c : ManifestConstraint) (msg : String) : Violation :=
  ⟨c.id, c.entity, c.description, msg, c.severity, c.evidence_source⟩

/-- A proposal: Python dict `entity → value`. -/
def Proposal := List (String × PyVal)

/-- Outcome of the operator dispatch (step 4 of `trace_evaluate`):
either `(is_violation, msg)` — a caught `TypeError` becomes a violation —
or an unexpected exception re-raised as `EvaluationError`. -/
inductive LogicOutcome where
  | result (is_violation : Bool) (msg : String)
  | evalError
deriving DecidableEq, Repr

/-- The `TypeError` handler's violation message. -/
def typeMismatchMsg (c : ManifestConstraint) : String :=
  "Type Mismatch: Expected compatible type for " ++ sq ++ c.entity ++ sq

/-- Step 4 of `KernelEngine.trace_evaluate`: the operator `if`/`elif`
chain.  REQUIRED and NIN have no branch in the source, so a present value
is never a violation for them.  RANGE mirrors Python's short-circuit
`value[0] <= v <= value[1]` including the `TypeError` vs `IndexError`
distinction. -/
def evalLogic (c : ManifestConstraint) (v : PyVal) : LogicOutcome :=
  match c.operator with
  | .GT =>
      match pyGT v c.value with
      | some b => if b then .result false "" else
          .result true ("Value " ++ pyStr v ++ " not greater than " ++ pyStr c.value)
      | Option.none => .result true (typeMismatchMsg c)
  | .LT =>
      match pyLT v c.value with
      | some b => if b then .result false "" else
          .result true ("Value " ++ pyStr v ++ " not less than " ++ pyStr c.value)
      | Option.none => .result true (typeMismatchMsg c)
  | .GTE =>
      match pyGE v c.value with
      | some b => if b then .result false "" else
          .result true ("Value " ++ pyStr v ++ " not greater than or equal to " ++ pyStr c.value)
      | Option.none => .result true (typeMismatchMsg c)
  | .LTE =>
      match pyLE v c.value with
      | some b => if b then .result false "" else
          .result true ("Value " ++ pyStr v ++ " not less than or equal to " ++ pyStr c.value)
      | Option.none => .result true (typeMismatchMsg c)
  | .EQ =>
      if pyEq v c.value then .result false "" else
        .result true ("Value " ++ pyStr v ++ " does not equal " ++ pyStr c.value)
  | .IN =>
      match pyIn v c.value with
      | some b => if b then .result false "" else
          .result true ("Value " ++ pyStr v ++ " not in allowed set " ++ pyStr c.value)
      | Option.none => .result true (typeMismatchMsg c)
  | .RANGE =>
      match pyIndex c.value 0 with
      | .typeErr => .result true (typeMismatchMsg c)
      | .idxErr => .evalError
      | .ok lo =>
          match pyLE lo v with
          | Option.none => .result true (typeMismatchMsg c)
          | some false =>
              .result true ("Value " ++ pyStr v ++ " outside allowed range " ++ pyStr c.value)
          | some true =>
              match pyIndex c.value 1 with
              | .typeErr => .result true (typeMismatchMsg c)
              | .idxErr => .evalError
              | .ok hi =>
                  match pyLE v hi with
                  | Option.none => .result true (typeMismatchMsg c)
                  | some b => if b then .result false "" else
                      .result true
                        ("Value " ++ pyStr v ++ " outside allowed range " ++ pyStr c.value)
  | .NIN => .result false ""
  | .REQUIRED => .result false ""

/-- The loop state of `KernelEngine.trace_evaluate`. -/
structure EvalState where
  violations : List Violation
  passes : List String
  results_map : List (String × Bool)
  deducted : ℚ
deriving DecidableEq, Repr

/-- `results_map.get(pid, False)`. -/
def lookupResult (m : List (String × Bool)) (pid : String) : Bool :=
  (m.lookup pid).getD false

/-- The dependency gate (step 0 of the loop): the constraint is evaluated
unless `conditional_on` is truthy and some prerequisite has not recorded a
pass.  (`all` of an empty list is `True` in Python, so a `Some []` gate
also passes — same as the falsy-`[]` short-circuit.) -/
def gatePasses (st : EvalState) (c : ManifestConstraint) : Bool :=
  match c.conditional_on with
  | Option.none => true
  | some deps => deps.all (fun pid => lookupResult st.results_map pid)

/-- One iteration of the constraint loop of `KernelEngine.trace_evaluate`
(with `state_buffer = None`: the push and temporal-resolution steps are
no-ops, so the resolved value is the proposal value).  `Except.error`
models a raised `EvaluationError`. -/
def evalStep (p : Proposal) (st : EvalState) (c : ManifestConstraint) :
    Except Unit EvalState :=
  if gatePasses st c then
    match p.lookup c.entity with
    | Option.none =>
        let msg :=
          if c.operator = .REQUIRED then "Missing required entity"
          else "Signal " ++ sq ++ c.entity ++ sq ++ " not found in proposal"
        .ok { violations := st.violations ++ [mkViolation c msg]
              passes := st.passes
              results_map := (c.id, false) :: st.results_map
              deducted := st.deducted + c.weight }
    | some v =>
        match evalLogic c v with
        | .evalError => .error ()
        | .result isViol msg =>
            if isViol then
              .ok { violations := st.violations ++ [mkViolation c msg]
                    passes := st.passes
                    results_map := (c.id, false) :: st.results_map
                    deducted := st.deducted + c.weight }
            else
              .ok { violations := st.violations
                    passes := st.passes ++ [c.id]
                    results_map := (c.id, true) :: st.results_map
                    deducted := st.deducted }
  else .ok st

/-- `total_weight = sum(c.weight for c in self.manifest.constraints)` —
computed before the loop, over every constraint (skipped ones included). -/
def totalWeight (m : DomainManifest) : ℚ :=
  (m.constraints.map (fun c => c.weight)).sum

/-- Python `round(x, 2)` (ties, which never occur here, are rounded up
rather than to even). -/
def round2 (q : ℚ) : ℚ := (⌊q * 100 + 1 / 2⌋ : ℚ) / 100

/-- The logic-health-score formula shared by both evaluators. -/
def healthScore (deducted total : ℚ) : ℚ :=
  if 0 < total then max 0 (100 * (1 - deducted / total)) else 100

/-- Un-governed signals: proposal keys not in the manifest's entity list
(the Python set difference, in first-occurrence order). -/
def unGoverned (m : DomainManifest) (p : Proposal) : List String :=
  ((p.map Prod.fst).eraseDups).filter (fun k => ¬ m.entities.contains k)

/-- The result record of `KernelEngine.trace_evaluate`.  The
`un_governed_signals` key is absent (`Option.none`) in the NO_MANIFEST
short-circuit record. -/
structure TraceResult where
  status : String
  violations : List Violation
  passes : List String
  score : ℚ
  un_governed_signals : Option (List String)
deriving DecidableEq, Repr

/-- `KernelEngine.trace_evaluate` (engine state = the optionally loaded
manifest; `state_buffer = None`).  `Except.error` is a raised
`EvaluationError`. -/
def KernelEngine.trace_evaluate (manifest : Option DomainManifest)
    (p : Proposal) : Except Unit TraceResult :=
  match manifest with
  | Option.none => .ok ⟨"NO_MANIFEST", [], [], 0, Option.none⟩
  | some m =>
      (m.constraints.foldlM (evalStep p) ⟨[], [], [], 0⟩).map (fun st =>
        ⟨if st.violations.isEmpty then "CERTIFIED" else "REJECTED",
         st.violations, st.passes,
         round2 (healthScore st.deducted (totalWeight m)),
         some (unGoverned m p)⟩)

/-- `KernelEngine.evaluate`: the violations of `trace_evaluate`. -/
def KernelEngine.evaluate (manifest : Option DomainManifest) (p : Proposal) :
    Except Unit (List Violation) :=
  (KernelEngine.trace_evaluate manifest p).map (fun r => r.violations)

/-! ### Compiler (`LNTCompiler` of compiler.py) -/

/-- Python dict lookup in an assoc list built by successive insertion:
the LAST binding of a key wins (dict overwrite). -/
def lookupLast {α : Type} (l : List (String × α)) (k : String) : Option α :=
  l.reverse.lookup k

/-- `entity_map = {entity: i for i, entity in enumerate(entities)}`. -/
def entityMapOf (entities : List String) : List (String × ℕ) :=
  entities.enum.map (fun ie => (ie.2, ie.1))

/-- `severity_map = {"CRITICAL": 2, "FATAL": 2, "WARNING": 1}` followed by
`severity_map.get(severity, 0)`. -/
def severity_map (s : String) : ℕ :=
  if s = "CRITICAL" then 2 else if s = "FATAL" then 2
  else if s = "WARNING" then 1 else 0

/-- `op_idx_map` with its `.get(operator, 2)` default. -/
def opIdx : ConstraintOperator → ℕ
  | .GT => 0 | .LT => 1 | .EQ => 2 | .GTE => 3 | .LTE => 4
  | .RANGE => 5 | .REQUIRED => 6
  | .IN => 2 | .NIN => 2

/-- Errors raised by `LNTCompiler.compile`. -/
inductive CompileError where
  | contradiction (msg : String)
  | typeMismatch (msg : String)
deriving DecidableEq, Repr

/-- Python `float()` on a manifest threshold value: numbers convert, other
values raise (numeric strings, which would convert, are not modelled). -/
def toFloat : PyVal → Option ℚ
  | .num q => some q
  | _ => Option.none

/-- A bound: `Option.none` stands for `-inf` (lower) / `+inf` (upper). -/
def Bound := Option ℚ × Option ℚ
deriving instance DecidableEq, Repr for Bound

/-- The bounds-extraction branch of `LNTCompiler.compile` for one
constraint.  GTE, LTE, IN and NIN have no branch in the source, so their
bounds stay infinite.  EQ of a non-number takes the `low = high = 0.0`
fallback; a bad threshold raises `TypeMismatchError`.  (RANGE over a
string value — Python would iterate its characters — is modelled as a
failed conversion.) -/
def constraintBounds (c : ManifestConstraint) : Except CompileError Bound :=
  let tmErr : Except CompileError Bound :=
    .error (.typeMismatch ("Invalid threshold value for " ++ c.id))
  match c.operator with
  | .GT =>
      match toFloat c.value with
      | some q => .ok (some q, Option.none)
      | Option.none => tmErr
  | .LT =>
      match toFloat c.value with
      | some q => .ok (Option.none, some q)
      | Option.none => tmErr
  | .EQ =>
      match c.value with
      | .num q => .ok (some q, some q)
      | _ => .ok (some 0, some 0)
  | .RANGE =>
      match c.value with
      | .list [a, b] =>
          match toFloat a.toVal, toFloat b.toVal with
          | some la, some lb => .ok (some la, some lb)
          | _, _ => tmErr
      | _ => tmErr
  | .REQUIRED => .ok (some (1 / 1000000000), Option.none)
  | _ => .ok (Option.none, Option.none)

/-- One `metadata` record of the compiled manifest. -/
structure CompiledMeta where
  id : String
  entity : String
  entity_idx : ℕ
  operator_idx : ℕ
  description : String
  severity_label : String
  weight : ℚ
  evidence : Option String
  conditional_on : List String
deriving DecidableEq, Repr

/-- One metadata record (`entity_map.get(entity, 0)` default 0;
`conditional_on or []`). -/
def metaOf (entityMap : List (String × ℕ)) (c : ManifestConstraint) :
    CompiledMeta :=
  ⟨c.id, c.entity, (lookupLast entityMap c.entity).getD 0, opIdx c.operator,
    c.description, c.severity, c.weight, c.evidence_source,
    c.conditional_on.getD []⟩

/-- `CompiledManifest` of compiler.py.  The dependency matrix is stored as
the function `dep d i = true` iff constraint `i` lists a `conditional_on`
id resolving to index `d` (the imperative construction sets exactly those
cells; `id_to_idx` is a dict, so the last constraint with a given id
wins). -/
structure CompiledManifest where
  domain_id : String
  entity_map : List (String × ℕ)
  bounds : List Bound
  severities : List ℕ
  metadata : List CompiledMeta
deriving DecidableEq, Repr

/-- `id_to_idx = {m["id"]: i for i, m in enumerate(metadata)}`. -/
def idToIdx (metadata : List CompiledMeta) : List (String × ℕ) :=
  metadata.enum.map (fun im => (im.2.id, im.1))

/-- Cell `[d, i]` of the dependency matrix. -/
def depMatrix (metadata : List CompiledMeta) (d i : ℕ) : Bool :=
  match metadata.get? i with
  | some mi =>
      mi.conditional_on.any (fun pid => lookupLast (idToIdx metadata) pid == some d)
  | Option.none => false

/-- The matrix-building part of `LNTCompiler.compile` (everything after
the optional verification step). -/
def compileCore (m : DomainManifest) : Except CompileError CompiledManifest := do
  let entityMap := entityMapOf m.entities
  let bounds ← m.constraints.mapM constraintBounds
  let severities := m.constraints.map (fun c => severity_map c.severity)
  let metadata := m.constraints.map (metaOf entityMap)
  pure ⟨m.domain_id, entityMap, bounds, severities, metadata⟩

/-! ### Formal verifier dispatch (formal.py) -/

/-- The Z3 `solver.check()` outcome (the solver itself is external). -/
inductive SolverOutcome where
  | sat | unsat | unknown
deriving DecidableEq, Repr

/-- The result dispatch of `FormalVerifier.verify_consistency` on the
solver outcome (`sat` → consistent; `unsat` and timeout/unknown → not
consistent, with distinct explanation strings). -/
def consistencyReport : SolverOutcome → Bool × Option String
  | .sat => (true, Option.none)
  | .unsat =>
      (false, some "Manifest contains contradictory constraints (unsatisfiable logic path)")
  | .unknown =>
      (false, some "Could not determine satisfiability (timeout or unknown)")

/-- `LNTCompiler.compile(manifest)` with its verification preamble: when
`verify` is set, any non-consistent report — proven contradiction or
timeout/unknown alike — raises `ManifestContradictionError`. -/
def LNTCompiler.compile (verify : Bool) (outcome : SolverOutcome)
    (m : DomainManifest) : Except CompileError CompiledManifest :=
  if verify then
    let rep := consistencyReport outcome
    if rep.1 then compileCore m
    else
      .error (.contradiction ("Logic contradiction detected in domain " ++
        m.domain_id ++ ": " ++ rep.2.getD ""))
  else compileCore m

/-! ### Vectorized evaluator (`OptimizedKernel` of optimized_kernel.py) -/

/-- An `OptimizedKernel` instance: the compiled manifest plus the reusable
scratch state vector `self._state_vec`. -/
structure OptimizedKernel where
  compiled : CompiledManifest
  state_vec : List ℚ
deriving DecidableEq, Repr

/-- `OptimizedKernel.__init__`: the scratch vector starts as
`np.zeros(len(self.indices))`. -/
def OptimizedKernel.init (cm : CompiledManifest) : OptimizedKernel :=
  ⟨cm, List.replicate cm.entity_map.length 0⟩

/-- `OptimizedKernel._update_state`: fill the scratch vector with the 0.1
sentinel, then write each proposal value whose key is a known entity;
values that do not convert to float are skipped. -/
def updateState (cm : CompiledManifest) (old : List ℚ) (p : Proposal) : List ℚ :=
  p.foldl
    (fun vec kv =>
      match lookupLast cm.entity_map kv.1 with
      | some idx =>
          match toFloat kv.2 with
          | some q => vec.set idx q
          | Option.none => vec
      | Option.none => vec)
    (old.map (fun _ => (1 : ℚ) / 10))

/-- `c_state = self._state_vec[self._c_indices]`. -/
def cState (cm : CompiledManifest) (vec : List ℚ) : List ℚ :=
  cm.metadata.map (fun mi => vec.getD mi.entity_idx 0)

/-- One cell of `_get_violation_mask`: `value < low or value > high`. -/
def boundViol (b : Bound) (v : ℚ) : Bool :=
  (match b.1 with
   | some lo => decide (v < lo)
   | Option.none => false) ||
  (match b.2 with
   | some hi => decide (hi < v)
   | Option.none => false)

/-- `_get_violation_mask` as a list of booleans (one per constraint). -/
def violationMask (cm : CompiledManifest) (vec : List ℚ) : List Bool :=
  ((cState cm vec).zip cm.bounds).map (fun vb => boundViol vb.2 vb.1)

/-- `_apply_dependency_pruning`: a constraint is pruned iff some failed
constraint is one it directly depends on. -/
def prunedMask (cm : CompiledManifest) (mask : List Bool) : List Bool :=
  (List.range mask.length).map
    (fun j => (List.range mask.length).any
      (fun d => mask.getD d false && depMatrix cm.metadata d j))

/-- `effective_mask = violation_mask & ~pruned_mask`. -/
def effectiveMask (cm : CompiledManifest) (mask : List Bool) : List Bool :=
  mask.zipWith (fun v pr => v && !pr) (prunedMask cm mask)

/-- The weight of constraint `i` (`metadata[i].get("weight", 1.0)`). -/
def weightAt (cm : CompiledManifest) (i : ℕ) : ℚ :=
  match cm.metadata.get? i with
  | some mi => mi.weight
  | Option.none => 0

/-- Sum of the weights at the `true` positions of a mask. -/
def maskedWeight (cm : CompiledManifest) (mask : List Bool) : ℚ :=
  ((List.range mask.length).filter (fun i => mask.getD i false)).foldl
    (fun a i => a + weightAt cm i) 0

/-- `_build_violations` over an effective mask. -/
def buildViolations (cm : CompiledManifest) (vec : List ℚ) (mask : List Bool) :
    List Violation :=
  ((List.range mask.length).filter (fun i => mask.getD i false)).map
    (fun i =>
      let mi := (cm.metadata.get? i).getD ⟨"", "", 0, 0, "", "", 0, Option.none, []⟩
      let v := (cState cm vec).getD i 0
      let b := cm.bounds.getD i (Option.none, Option.none)
      let lo := match b.1 with | some q => pyStr (.num q) | Option.none => "-inf"
      let hi := match b.2 with | some q => pyStr (.num q) | Option.none => "inf"
      ⟨mi.id, mi.entity, mi.description,
        "Value " ++ pyStr (.num v) ++ " outside bounds [" ++ lo ++ ", " ++ hi ++ "]",
        mi.severity_label, mi.evidence⟩)

/-- The result record of `OptimizedKernel.trace_evaluate`. -/
structure OptTraceResult where
  status : String
  violations : List Violation
  passes : List String
  pruned : List String
  score : ℚ
deriving DecidableEq, Repr

/-- `OptimizedKernel.trace_evaluate`: returns the result record and the
kernel with its mutated scratch vector. -/
def OptimizedKernel.trace_evaluate (k : OptimizedKernel) (p : Proposal) :
    OptTraceResult × OptimizedKernel :=
  let cm := k.compiled
  let vec := updateState cm k.state_vec p
  let mask := violationMask cm vec
  let pruned := prunedMask cm mask
  let effective := effectiveMask cm mask
  let total := maskedWeight cm (pruned.map (fun b => !b))
  let deducted := maskedWeight cm effective
  let score := round2 (healthScore deducted total)
  let hasCritical :=
    (List.range mask.length).any
      (fun i => effective.getD i false && (cm.severities.getD i 0 == 2))
  let violations := buildViolations cm vec effective
  let passes :=
    ((List.range mask.length).filter
      (fun i => !effective.getD i false && !pruned.getD i false)).map
      (fun i => ((cm.metadata.get? i).map (fun mi => mi.id)).getD "")
  let prunedIds :=
    ((List.range mask.length).filter (fun i => pruned.getD i false)).map
      (fun i => ((cm.metadata.get? i).map (fun mi => mi.id)).getD "")
  let status0 := if violations.isEmpty then "CERTIFIED" else "REJECTED"
  let status := if hasCritical then "REJECTED_CRITICAL" else status0
  (⟨status, violations, passes, prunedIds, score⟩, ⟨cm, vec⟩)

/-! ### Helper lemmas -/

/-- On success, `compileCore` maps each constraint's severity through
`severity_map`, positionally. -/
theorem compileCore_severities {m : DomainManifest} {cm : CompiledManifest}
    (h : compileCore m = .ok cm) :
    cm.severities = m.constraints.map (fun c => severity_map c.severity) := by
  unfold compileCore at h
  cases hb : m.constraints.mapM constraintBounds with
  | error e => rw [hb] at h; simp [Bind.bind, Except.bind] at h
  | ok bs =>
      rw [hb] at h
      simp only [Bind.bind, Except.bind, pure, Except.pure] at h
      cases h
      rfl

/-- `validate_entities` succeeds exactly when every constraint's entity is
declared. -/
theorem validate_entities_ok_iff (es : List String) (l : List ManifestConstraint) :
    validate_entities es l = .ok () ↔ ∀ c ∈ l, es.contains c.entity := by
  induction l with
  | nil => simp [validate_entities]
  | cons c rest ih =>
      by_cases hc : c.entity ∈ es
      · simp [validate_entities, hc, ih]
      · simp [validate_entities, hc]

/-- A constant-valued map depends only on the list's length. -/
theorem map_const_eq_of_length {α : Type} {s₁ s₂ : List α} (c : ℚ)
    (h : s₁.length = s₂.length) :
    s₁.map (fun _ => c) = s₂.map (fun _ => c) := by
  induction s₁ generalizing s₂ with
  | nil => cases s₂ with
      | nil => rfl
      | cons y ys => simp at h
  | cons x xs ih =>
      cases s₂ with
      | nil => simp at h
      | cons y ys =>
          simp only [List.length_cons, Nat.succ.injEq] at h
          simp only [List.map_cons]
          rw [ih h]

/-- The proposal-write fold of `_update_state` preserves the vector's
length. -/
theorem updateState_foldl_length (p : Proposal) (cm : CompiledManifest)
    (v : List ℚ) :
    (p.foldl
      (fun vec kv =>
        match lookupLast cm.entity_map kv.1 with
        | some idx =>
            match toFloat kv.2 with
            | some q => vec.set idx q
            | Option.none => vec
        | Option.none => vec) v).length = v.length := by
  induction p generalizing v with
  | nil => rfl
  | cons kv rest ih =>
      simp only [List.foldl_cons]
      rw [ih]
      cases lookupLast cm.entity_map kv.1 with
      | none => rfl
      | some idx =>
          cases toFloat kv.2 with
          | none => rfl
          | some q => exact List.length_set v idx q

/-- `_update_state` yields the same vector from any same-length scratch
buffer (the `fill(0.1)` overwrites everything). -/
theorem updateState_eq_of_length (cm : CompiledManifest) (p : Proposal)
    {s₁ s₂ : List ℚ} (h : s₁.length = s₂.length) :
    updateState cm s₁ p = updateState cm s₂ p := by
  unfold updateState
  rw [map_const_eq_of_length _ h]

/-- `_update_state` preserves the scratch buffer's length. -/
theorem updateState_length (cm : CompiledManifest) (p : Proposal) (s : List ℚ) :
    (updateState cm s p).length = s.length := by
  unfold updateState
  rw [updateState_foldl_length]
  exact List.length_map s _

/-! ### Concrete fixtures used by the claim theorems -/

/-- A default compiled manifest (used only as a `getD` fallback). -/
def emptyCompiled : CompiledManifest := ⟨"", [], [], [], []⟩

/-- One GT-10 constraint, default CRITICAL severity, no conditions. -/
def cGtBoundary : ManifestConstraint :=
  ⟨"A1", "a", .GT, .num 10, "must exceed ten", "CRITICAL", 1,
    Option.none, Option.none, Option.none⟩

/-- Single-constraint manifest exercising the GT boundary. -/
def mGtBoundary : DomainManifest := ⟨"D1", "Dom", "1.0", ["a"], [cGtBoundary]⟩

/-- Proposal sitting exactly on the GT threshold. -/
def pGtBoundary : Proposal := [("a", .num 10)]

/-- The spec's three-rule DAG manifest (A; B conditional on A; C). -/
def mDag : DomainManifest :=
  ⟨"DAG_TEST", "DAG Dependency Test", "1.0.0", ["a", "b", "c"],
    [⟨"RULE_A", "a", .GT, .num 10, "Rule A", "CRITICAL", 1,
       Option.none, Option.none, Option.none⟩,
     ⟨"RULE_B", "b", .GT, .num 5, "Rule B", "WARNING", 1,
       some ["RULE_A"], Option.none, Option.none⟩,
     ⟨"RULE_C", "c", .GT, .num 0, "Rule C", "WARNING", 1,
       Option.none, Option.none, Option.none⟩]⟩

/-- The spec's DAG proposal: A fails, B would pass, C passes. -/
def pDag : Proposal := [("a", .num 5), ("b", .num 10), ("c", .num 5)]

/-- A TOXIC-severity constraint. -/
def cToxic : ManifestConstraint :=
  ⟨"T", "x", .GT, .num 1, "d", "TOXIC", 1, Option.none, Option.none, Option.none⟩

/-- Manifest with one constraint per severity label of interest. -/
def mSeverities : DomainManifest :=
  ⟨"D4", "Dom", "1.0", ["x"],
    [cToxic,
     ⟨"I", "x", .GT, .num 1, "d", "IMPOSSIBLE", 1, Option.none, Option.none, Option.none⟩,
     ⟨"W", "x", .GT, .num 1, "d", "WARNING", 1, Option.none, Option.none, Option.none⟩,
     ⟨"C", "x", .GT, .num 1, "d", "CRITICAL", 1, Option.none, Option.none, Option.none⟩,
     ⟨"F", "x", .GT, .num 1, "d", "FATAL", 1, Option.none, Option.none, Option.none⟩,
     ⟨"O", "x", .GT, .num 1, "d", "SEVERE", 1, Option.none, Option.none, Option.none⟩]⟩

/-- The compiled form of `mSeverities`. -/
def cmSeverities : CompiledManifest :=
  (compileCore mSeverities).toOption.getD emptyCompiled

/-- A small manifest fed to the compiler's verification preamble. -/
def mConsistency : DomainManifest := ⟨"DC3", "D", "1", ["x"], []⟩

/-- Manifest whose only constraint has a RANGE operator with a scalar
threshold and an unresolvable `conditional_on` id. -/
def mRangeScalar : DomainManifest :=
  ⟨"D5", "Dom", "1.0", ["x"],
    [⟨"R1", "x", .RANGE, .num 5, "scalar range", "CRITICAL", 1,
       some ["GHOST"], Option.none, Option.none⟩]⟩

/-- A zero-constraint manifest. -/
def mEmpty : DomainManifest := ⟨"D7", "Dom", "1.0", ["x", "y"], []⟩

/-- An arbitrary proposal for the zero-constraint manifest. -/
def pEmpty : Proposal := [("z", .num 3)]

/-- A REQUIRED constraint on an entity the witness proposal omits. -/
def cRequired : ManifestConstraint :=
  ⟨"R", "x", .REQUIRED, .num 1, "needed", "CRITICAL", 1,
    Option.none, Option.none, Option.none⟩

/-! ### Claim theorems -/

/-- Claim C1.  The claim states that for manifests with no `conditional_on`
and no `temporal_window` the interpreted and vectorized evaluators return
the same status, violations and score.  This theorem evaluates both at the
single-constraint manifest (GT 10 on `a`, default CRITICAL severity) and
the proposal `a = 10`: the interpreted evaluator rejects with score 0 and
one violation, while the vectorized evaluator certifies with score 100 and
no violations — the compiled lower bound for GT is inclusive while the
interpreted comparison is strict.  The claim fails on the code. -/
theorem gt_boundary_divergence_between_evaluators :
    (KernelEngine.trace_evaluate (some mGtBoundary) pGtBoundary).map
      (fun r => (r.status, r.score, r.violations.map (fun v => v.id))) =
      .ok ("REJECTED", 0, ["A1"]) ∧
    (compileCore mGtBoundary).map
      (fun cm =>
        (let r := ((OptimizedKernel.init cm).trace_evaluate pGtBoundary).1
         (r.status, r.score, r.violations.map (fun v => v.id)))) =
      .ok ("CERTIFIED", 100, []) := by
  constructor
  · with_unfolding_all decide
  · with_unfolding_all decide

/-- Claim C2 counterexample.  On the spec's three-rule manifest and the
proposal `{a:5, b:10, c:5}`, the interpreted evaluator yields violations
`[RULE_A]`, passes `[RULE_C]` and score 66.67 — not 50.0 — and the total
weight it divides by is 3 — not 2 — because `total_weight` is summed over
every constraint before the dependency gate runs. -/
theorem dag_prune_score_counterexample :
    (KernelEngine.trace_evaluate (some mDag) pDag).map
      (fun r => (r.violations.map (fun v => v.id), r.passes, r.score)) =
      .ok (["RULE_A"], ["RULE_C"], 6667 / 100) ∧
    totalWeight mDag = 3 ∧
    ¬ ((6667 : ℚ) / 100 = 50) ∧ ¬ (totalWeight mDag = 2) := by
  have hfold : mDag.constraints.foldlM (evalStep pDag) ⟨[], [], [], 0⟩ =
      .ok ⟨[⟨"RULE_A", "a", "Rule A", "Value 5 not greater than 10",
              "CRITICAL", Option.none⟩],
           ["RULE_C"], [("RULE_C", true), ("RULE_A", false)], 1⟩ := by
    with_unfolding_all decide
  have htot : totalWeight mDag = 3 := by
    norm_num [totalWeight, mDag]
  have hscore : round2 (healthScore 1 (totalWeight mDag)) = 6667 / 100 := by
    rw [htot]; norm_num [round2, healthScore]
  refine ⟨?_, htot, by norm_num, by rw [htot]; norm_num⟩
  simp [KernelEngine.trace_evaluate, hfold, hscore, Except.map]

/-- Claim C2 amended.  In the interpreted evaluator a constraint skipped by
the dependency gate contributes nothing to the deducted weight (and is
neither a violation nor a pass), but its weight stays in the score's total
weight: on the spec's manifest/proposal, A violates, B is skipped, C
passes, the deducted weight is 1, the total weight is 3 and the score is
66.67. -/
theorem dag_prune_score_amended :
    mDag.constraints.foldlM (evalStep pDag) ⟨[], [], [], 0⟩ =
      .ok ⟨[⟨"RULE_A", "a", "Rule A", "Value 5 not greater than 10",
              "CRITICAL", Option.none⟩],
           ["RULE_C"], [("RULE_C", true), ("RULE_A", false)], 1⟩ ∧
    totalWeight mDag = 3 ∧
    (KernelEngine.trace_evaluate (some mDag) pDag).map
      (fun r => (r.status, r.violations.map (fun v => v.id), r.passes, r.score)) =
      .ok ("REJECTED", ["RULE_A"], ["RULE_C"], 6667 / 100) := by
  have hfold : mDag.constraints.foldlM (evalStep pDag) ⟨[], [], [], 0⟩ =
      .ok ⟨[⟨"RULE_A", "a", "Rule A", "Value 5 not greater than 10",
              "CRITICAL", Option.none⟩],
           ["RULE_C"], [("RULE_C", true), ("RULE_A", false)], 1⟩ := by
    with_unfolding_all decide
  have htot : totalWeight mDag = 3 := by
    norm_num [totalWeight, mDag]
  have hscore : round2 (healthScore 1 (totalWeight mDag)) = 6667 / 100 := by
    rw [htot]; norm_num [round2, healthScore]
  refine ⟨hfold, htot, ?_⟩
  simp [KernelEngine.trace_evaluate, hfold, hscore, Except.map]

/-- Claim C3.  `verify_consistency` does report timeout/unknown with an
explanation distinct from both the consistent and the contradictory
outcomes, but `compile` with verification enabled checks only the boolean
and therefore raises `ManifestContradictionError` on a timeout/unknown
solver result as well — not only on a proven unsat, contradicting the
claim (and the exception's own documentation, which reserves it for a
detected contradiction). -/
theorem compile_verification_timeout_behavior :
    consistencyReport .unknown =
      (false, some "Could not determine satisfiability (timeout or unknown)") ∧
    consistencyReport .unknown ≠ consistencyReport .unsat ∧
    consistencyReport .unknown ≠ consistencyReport .sat ∧
    LNTCompiler.compile true .unknown mConsistency =
      .error (.contradiction
        "Logic contradiction detected in domain DC3: Could not determine satisfiability (timeout or unknown)") ∧
    LNTCompiler.compile true .unsat mConsistency =
      .error (.contradiction
        "Logic contradiction detected in domain DC3: Manifest contains contradictory constraints (unsatisfiable logic path)") ∧
    LNTCompiler.compile true .sat mConsistency = compileCore mConsistency := by
  refine ⟨rfl, by decide, by decide, ?_, ?_, rfl⟩
  · with_unfolding_all decide
  · with_unfolding_all decide

/-- Claim C4 counterexample.  The compiler's severity table maps TOXIC and
IMPOSSIBLE (and any other unknown label) to class 0, not to the critical
class 2 (and not to the warning class 1 either): the compiled
`severity_class` of the six-label manifest is `[0, 0, 1, 2, 2, 0]`. -/
theorem severity_alias_counterexample :
    (compileCore mSeverities).map (fun cm => cm.severities) =
      .ok [0, 0, 1, 2, 2, 0] ∧
    severity_map "TOXIC" = 0 ∧ severity_map "IMPOSSIBLE" = 0 ∧
    ¬ (severity_map "TOXIC" = 2) ∧ ¬ (severity_map "SEVERE" = 1) := by
  refine ⟨?_, rfl, rfl, by decide, by decide⟩
  with_unfolding_all decide

/-- Claim C4 amended.  For every constraint, the compiled severity_class
entry is 2 exactly for the labels CRITICAL and FATAL, 1 for WARNING, and 0
for every other label (including TOXIC and IMPOSSIBLE). -/
theorem severity_class_amended (m : DomainManifest) (cm : CompiledManifest)
    (h : compileCore m = .ok cm) (i : ℕ) (c : ManifestConstraint)
    (hc : m.constraints[i]? = some c) :
    cm.severities[i]? =
      some (if c.severity = "CRITICAL" ∨ c.severity = "FATAL" then 2
            else if c.severity = "WARNING" then 1 else 0) := by
  rw [compileCore_severities h, List.getElem?_map, hc]
  unfold severity_map
  by_cases h1 : c.severity = "CRITICAL"
  · simp [h1]
  · by_cases h2 : c.severity = "FATAL"
    · simp [h1, h2]
    · by_cases h3 : c.severity = "WARNING"
      · simp [h1, h2, h3]
      · simp [h1, h2, h3]

/-- Witness for the amended C4 theorem at the TOXIC constraint. -/
theorem severity_class_amended_witness :
    compileCore mSeverities = .ok cmSeverities ∧
    mSeverities.constraints[0]? = some cToxic ∧
    cmSeverities.severities[0]? =
      some (if cToxic.severity = "CRITICAL" ∨ cToxic.severity = "FATAL" then 2
            else if cToxic.severity = "WARNING" then 1 else 0) :=
  ⟨by with_unfolding_all decide, by with_unfolding_all decide,
   severity_class_amended mSeverities cmSeverities
     (by with_unfolding_all decide) 0 cToxic (by with_unfolding_all decide)⟩

/-- Claim C5 counterexample.  A manifest whose only constraint pairs RANGE
with a scalar threshold and lists an unresolvable `conditional_on` id is
accepted by construction (the pydantic validator checks only entity
declarations), where the claim demands a `ManifestValidationError`. -/
theorem construct_accepts_mismatch_counterexample :
    (mRangeScalar.constraints[0]?).map
      (fun c => (c.operator, c.value, c.conditional_on)) =
      some (.RANGE, .num 5, some ["GHOST"]) ∧
    DomainManifest.construct mRangeScalar = .ok mRangeScalar := by
  constructor
  · with_unfolding_all decide
  · with_unfolding_all decide

/-- Claim C5 amended.  Constructing a `DomainManifest` fails (with a
validation error) exactly when some constraint references an entity not
declared in the manifest's entity list; operator/value type mismatches and
unresolvable `conditional_on` ids are not checked at construction. -/
theorem construct_fails_iff_undeclared_entity (m : DomainManifest) :
    DomainManifest.construct m = .ok m ↔
      ∀ c ∈ m.constraints, c.entity ∈ m.entities := by
  unfold DomainManifest.construct
  constructor
  · intro h
    cases hv : validate_entities m.entities m.constraints with
    | error e => rw [hv] at h; simp [Except.map] at h
    | ok u =>
        have : validate_entities m.entities m.constraints = .ok () := by
          rw [hv]
        have hmem := (validate_entities_ok_iff m.entities m.constraints).mp this
        intro c hc
        simpa using hmem c hc
  · intro h
    have : validate_entities m.entities m.constraints = .ok () := by
      rw [validate_entities_ok_iff]
      intro c hc
      simpa using h c hc
    rw [this]
    rfl

/-- Witness for the amended C5 theorem: the RANGE-with-scalar manifest has
all entities declared, so construction succeeds. -/
theorem construct_fails_iff_witness :
    DomainManifest.construct mRangeScalar = .ok mRangeScalar :=
  (construct_fails_iff_undeclared_entity mRangeScalar).mpr (by decide)

/-- Claim C6.  In the interpreted evaluator's per-constraint step, whenever
the dependency gate passes and the resolved value is absent (`None`), the
constraint is recorded as a violation and its weight is added to the
deducted weight, with message "Missing required entity" for the REQUIRED
operator and a "not found in proposal" message for every other operator. -/
theorem missing_value_always_violation (p : Proposal) (st : EvalState)
    (c : ManifestConstraint) (hgate : gatePasses st c = true)
    (hmiss : p.lookup c.entity = Option.none) :
    evalStep p st c =
      .ok { violations := st.violations ++
              [mkViolation c
                (if c.operator = .REQUIRED then "Missing required entity"
                 else "Signal " ++ sq ++ c.entity ++ sq ++ " not found in proposal")]
            passes := st.passes
            results_map := (c.id, false) :: st.results_map
            deducted := st.deducted + c.weight } := by
  unfold evalStep
  rw [hgate, hmiss]
  simp

/-- Witness for C6: the REQUIRED constraint against the empty proposal. -/
theorem missing_value_always_violation_witness :
    gatePasses ⟨[], [], [], 0⟩ cRequired = true ∧
    ([] : Proposal).lookup cRequired.entity = Option.none ∧
    evalStep [] ⟨[], [], [], 0⟩ cRequired =
      .ok { violations := [] ++
              [mkViolation cRequired
                (if cRequired.operator = .REQUIRED then "Missing required entity"
                 else "Signal " ++ sq ++ cRequired.entity ++ sq ++
                   " not found in proposal")]
            passes := []
            results_map := [(cRequired.id, false)]
            deducted := 0 + cRequired.weight } :=
  ⟨by decide, by decide,
   missing_value_always_violation [] ⟨[], [], [], 0⟩ cRequired
     (by decide) (by decide)⟩

/-- Claim C7.  For every manifest with zero constraints and every proposal,
both the interpreted evaluator and the vectorized evaluator over the
compiled manifest return status CERTIFIED, empty violations and passes,
and score 100. -/
theorem empty_manifest_certifies (m : DomainManifest) (p : Proposal)
    (h : m.constraints = []) :
    (KernelEngine.trace_evaluate (some m) p).map
      (fun r => (r.status, r.violations, r.passes, r.score)) =
      .ok ("CERTIFIED", [], [], 100) ∧
    (compileCore m).map
      (fun cm =>
        (let r := ((OptimizedKernel.init cm).trace_evaluate p).1
         (r.status, r.violations, r.passes, r.score))) =
      .ok ("CERTIFIED", [], [], 100) := by
  have hscore : round2 (healthScore 0 0) = 100 := by
    norm_num [round2, healthScore]
  constructor
  · simp [KernelEngine.trace_evaluate, h, List.foldlM, Except.map, totalWeight,
      pure, Except.pure, hscore]
  · simp [compileCore, h, List.mapM, List.mapM.loop, Bind.bind, Except.bind,
      pure, Except.pure, Except.map, OptimizedKernel.trace_evaluate,
      OptimizedKernel.init, violationMask, cState, prunedMask, effectiveMask,
      maskedWeight, buildViolations, hscore]

/-- Witness for C7 at a concrete zero-constraint manifest and proposal. -/
theorem empty_manifest_certifies_witness :
    mEmpty.constraints = [] ∧
    ((KernelEngine.trace_evaluate (some mEmpty) pEmpty).map
      (fun r => (r.status, r.violations, r.passes, r.score)) =
      .ok ("CERTIFIED", [], [], 100) ∧
    (compileCore mEmpty).map
      (fun cm =>
        (let r := ((OptimizedKernel.init cm).trace_evaluate pEmpty).1
         (r.status, r.violations, r.passes, r.score))) =
      .ok ("CERTIFIED", [], [], 100)) :=
  ⟨rfl, empty_manifest_certifies mEmpty pEmpty rfl⟩

/-- Claim C8.  Evaluating the same proposal twice in succession on the same
`OptimizedKernel` yields the identical result record (violations, passes,
pruned, status and score) and the identical kernel state: `_update_state`
re-initializes the whole scratch vector on every call, so no state leaks
between calls. -/
theorem vectorized_evaluation_idempotent (k : OptimizedKernel) (p : Proposal) :
    ((k.trace_evaluate p).2).trace_evaluate p = k.trace_evaluate p := by
  have hvec : updateState k.compiled (updateState k.compiled k.state_vec p) p =
      updateState k.compiled k.state_vec p := by
    exact updateState_eq_of_length k.compiled p
      (updateState_length k.compiled p k.state_vec)
  simp only [OptimizedKernel.trace_evaluate]
  simp only [hvec]

/-- Claim C9.  `parse_window` converts duration strings to seconds
case-insensitively by suffix — 500ms to 0.5, 30s to 30, 5m to 300, 2h to
7200, 30d to 2592000 — and returns 0 for every string whose (lowercased,
stripped) form ends in none of the recognized suffixes. -/
theorem parse_window_suffix_table :
    parse_window "500ms" = some (1 / 2) ∧
    parse_window "30s" = some 30 ∧
    parse_window "5m" = some 300 ∧
    parse_window "2h" = some 7200 ∧
    parse_window "30d" = some 2592000 ∧
    parse_window "2H" = some 7200 ∧
    (∀ s : String,
      endsWithChars (strip (s.toList.map lowerChar)) ['m', 's'] = false →
      endsWithChars (strip (s.toList.map lowerChar)) ['s'] = false →
      endsWithChars (strip (s.toList.map lowerChar)) ['m'] = false →
      endsWithChars (strip (s.toList.map lowerChar)) ['h'] = false →
      endsWithChars (strip (s.toList.map lowerChar)) ['d'] = false →
      parse_window s = some 0) := by
  refine ⟨?_, ?_, ?_, ?_, ?_, ?_, ?_⟩
  · with_unfolding_all decide
  · with_unfolding_all decide
  · with_unfolding_all decide
  · have h1 : endsWithChars (strip ("2h".toList.map lowerChar)) ['m', 's'] = false := by decide
    have h2 : endsWithChars (strip ("2h".toList.map lowerChar)) ['s'] = false := by decide
    have h3 : endsWithChars (strip ("2h".toList.map lowerChar)) ['m'] = false := by decide
    have h4 : endsWithChars (strip ("2h".toList.map lowerChar)) ['h'] = true := by decide
    have hpf : parseFloat (dropRightChars (strip ("2h".toList.map lowerChar)) 1) =
        some 2 := by
      with_unfolding_all decide
    simp only [String.toList, List.map_cons, List.map_nil] at h1 h2 h3 h4 hpf
    norm_num [parse_window, String.toList, h1, h2, h3, h4, hpf]
  · have h1 : endsWithChars (strip ("30d".toList.map lowerChar)) ['m', 's'] = false := by decide
    have h2 : endsWithChars (strip ("30d".toList.map lowerChar)) ['s'] = false := by decide
    have h3 : endsWithChars (strip ("30d".toList.map lowerChar)) ['m'] = false := by decide
    have h4 : endsWithChars (strip ("30d".toList.map lowerChar)) ['h'] = false := by decide
    have h5 : endsWithChars (strip ("30d".toList.map lowerChar)) ['d'] = true := by decide
    have hpf : parseFloat (dropRightChars (strip ("30d".toList.map lowerChar)) 1) =
        some 30 := by
      with_unfolding_all decide
    simp only [String.toList, List.map_cons, List.map_nil] at h1 h2 h3 h4 h5 hpf
    norm_num [parse_window, String.toList, h1, h2, h3, h4, h5, hpf]
  · have h1 : endsWithChars (strip ("2H".toList.map lowerChar)) ['m', 's'] = false := by decide
    have h2 : endsWithChars (strip ("2H".toList.map lowerChar)) ['s'] = false := by decide
    have h3 : endsWithChars (strip ("2H".toList.map lowerChar)) ['m'] = false := by decide
    have h4 : endsWithChars (strip ("2H".toList.map lowerChar)) ['h'] = true := by decide
    have hpf : parseFloat (dropRightChars (strip ("2H".toList.map lowerChar)) 1) =
        some 2 := by
      with_unfolding_all decide
    simp only [String.toList, List.map_cons, List.map_nil] at h1 h2 h3 h4 hpf
    norm_num [parse_window, String.toList, h1, h2, h3, h4, hpf]
  · intro s h1 h2 h3 h4 h5
    simp only [String.toList] at h1 h2 h3 h4 h5
    simp [parse_window, String.toList, h1, h2, h3, h4, h5]

/-- Witness for the generic clause of C9 at the unrecognized suffix "10w". -/
theorem parse_window_suffix_table_witness :
    endsWithChars (strip ("10w".toList.map lowerChar)) ['m', 's'] = false ∧
    parse_window "10w" = some 0 :=
  ⟨by decide,
   parse_window_suffix_table.2.2.2.2.2.2 "10w" (by decide) (by decide)
     (by decide) (by decide) (by decide)⟩

/-- Claim C10.  With no manifest loaded, `trace_evaluate` returns the
NO_MANIFEST record (empty violations and passes, score 0, and no
un-governed-signals key) and `evaluate` returns an empty violation list,
for every proposal, without raising. -/
theorem no_manifest_short_circuit (p : Proposal) :
    KernelEngine.trace_evaluate Option.none p =
      .ok ⟨"NO_MANIFEST", [], [], 0, Option.none⟩ ∧
    KernelEngine.evaluate Option.none p = .ok [] :=
  ⟨rfl, rfl⟩

end LNT
